import Mathlib

set_option linter.unusedVariables false

/-!
Verification development for the artifact classification, matching and
injection pipeline of the Android-Rehoster repository
(`ReHosterCode/aosp_module_type.py`, `ReHosterCode/aosp_post_build_injector.py`,
`ReHosterCode/aosp_apex_injector.py`, `ReHosterCode/common.py`).

The Python code is shallowly embedded: pure string manipulation is
translated directly, the filesystem and external tools are abstracted as
oracle fields of an environment structure, and Python exceptions are
modelled with `Except String`.
-/

namespace Rehoster

/-! ### Python string primitives

Helpers mirroring the Python `str`/`os.path` operations used by the code
under verification.  They operate on `List Char` so that all proofs reduce
in the kernel. -/

/-- `startsWithL pre l`: `l` starts with `pre` (Python `str.startswith`). -/
def startsWithL : List Char → List Char → Bool
  | [], _ => true
  | _ :: _, [] => false
  | a :: as, b :: bs => a = b && startsWithL as bs

/-- Substring containment on `List Char` (Python `needle in hay`). -/
def containsL (needle : List Char) : List Char → Bool
  | [] => needle.isEmpty
  | hay@(_ :: rest) => startsWithL needle hay || containsL needle rest

/-- Python `needle in hay` on strings. -/
def pyIn (needle hay : String) : Bool :=
  containsL needle.data hay.data

/-- Python `str.endswith`. -/
def pyEndsWith (s suf : String) : Bool :=
  startsWithL suf.data.reverse s.data.reverse

/-- Python `str.startswith` on strings (used for path-under-folder tests). -/
def pyStartsWith (s pre : String) : Bool :=
  startsWithL pre.data s.data

/-- Replace all non-overlapping occurrences of `old` (left to right), with
explicit fuel so the recursion is structural (Python `str.replace`; `old`
is never empty at the call sites). -/
def replaceAux (old new : List Char) : Nat → List Char → List Char
  | 0, l => l
  | _ + 1, [] => []
  | fuel + 1, l@(c :: rest) =>
    if !old.isEmpty && startsWithL old l then
      new ++ replaceAux old new fuel (l.drop old.length)
    else
      c :: replaceAux old new fuel rest

/-- Python `s.replace(old, new)`. -/
def pyReplace (s old new : String) : String :=
  ⟨replaceAux old.data new.data s.data.length s.data⟩

/-- Index of the last `/` in the char list, if any. -/
def lastSlashIdx (l : List Char) : Option Nat :=
  let idxs := (List.range l.length).filter (fun i => l.getD i ' ' = '/')
  idxs.getLast?

/-- Python `os.path.basename`: everything after the last `/`. -/
def pyBasename (p : String) : String :=
  match lastSlashIdx p.data with
  | none => p
  | some i => ⟨p.data.drop (i + 1)⟩

/-- Python `os.path.dirname`: everything before the last `/`, with trailing
slashes stripped unless the head is all slashes. -/
def pyDirname (p : String) : String :=
  match lastSlashIdx p.data with
  | none => ""
  | some i =>
    let head := p.data.take (i + 1)
    if head.all (· = '/') then ⟨head⟩ else ⟨head.reverse.dropWhile (· = '/') |>.reverse⟩

/-- Index of the last `.` in the char list, if any. -/
def lastDotIdx (l : List Char) : Option Nat :=
  let idxs := (List.range l.length).filter (fun i => l.getD i ' ' = '.')
  idxs.getLast?

/-- Python `os.path.splitext`: split off the extension beginning at the last
dot of the basename, unless the basename consists only of leading dots up
to that position. -/
def pySplitext (p : String) : String × String :=
  let l := p.data
  let sepIdx : Nat := match lastSlashIdx l with | none => 0 | some i => i + 1
  match lastDotIdx l with
  | none => (p, "")
  | some d =>
    if sepIdx ≤ d ∧ (l.drop sepIdx |>.take (d - sepIdx)).any (· ≠ '.') then
      (⟨l.take d⟩, ⟨l.drop d⟩)
    else
      (p, "")

/-- Python `str.strip()` (whitespace at both ends). -/
def pyStrip (s : String) : String :=
  ⟨((s.data.dropWhile Char.isWhitespace).reverse.dropWhile Char.isWhitespace).reverse⟩

/-- Python `str.lower()` (ASCII). -/
def pyLower (s : String) : String := ⟨s.data.map Char.toLower⟩

/-- Python `os.path.join` for two components. -/
def pyJoin (a b : String) : String :=
  if startsWithL "/".data b.data then b
  else if a = "" then b
  else if pyEndsWith a "/" then a ++ b
  else a ++ "/" ++ b

/-- Python `os.path.join` for three components. -/
def pyJoin3 (a b c : String) : String := pyJoin (pyJoin a b) c

/-- Python `re.sub(r"tzdata\d+", "tzdata", s)`: each occurrence of
`tzdata` followed by at least one digit is collapsed to `tzdata`. -/
def subTzdataAux : Nat → List Char → List Char
  | 0, l => l
  | _ + 1, [] => []
  | fuel + 1, l@(c :: rest) =>
    if startsWithL "tzdata".data l && ((l.drop 6).headD ' ').isDigit then
      "tzdata".data ++ subTzdataAux fuel ((l.drop 6).dropWhile Char.isDigit)
    else
      c :: subTzdataAux fuel rest

/-- Python `re.sub(r"tzdata\d+", "tzdata", s)` on strings. -/
def subTzdata (s : String) : String := ⟨subTzdataAux s.data.length s.data⟩

/-- Decidable equality for `Except`, so that concrete runs of the embedded
fallible functions can be checked by `decide`. -/
instance exceptDecEq {ε α : Type} [DecidableEq ε] [DecidableEq α] :
    DecidableEq (Except ε α) := fun a b =>
  match a, b with
  | .ok x, .ok y =>
    if h : x = y then isTrue (by rw [h]) else
      isFalse (fun hh => h (by cases hh; rfl))
  | .error x, .error y =>
    if h : x = y then isTrue (by rw [h]) else
      isFalse (fun hh => h (by cases hh; rfl))
  | .ok _, .error _ => isFalse (fun hh => by cases hh)
  | .error _, .ok _ => isFalse (fun hh => by cases hh)

/-! ### Data model -/

/-- File contents oracle: the bytes of each file (`none` = the file does not
exist or is unreadable, so `open` raises). -/
def FileBytes := String → Option (List Nat)

/-- The ELF magic `b"\x7fELF"`. -/
def elfMagic : List Nat := [0x7f, 0x45, 0x4c, 0x46]

/-- `common.is_elf_binary`: read the first four bytes and compare with the
ELF magic; any exception (unreadable file) yields `false`. -/
def is_elf_binary (fs : FileBytes) (file_path : String) : Bool :=
  match fs file_path with
  | none => false
  | some bs => (bs.take 4) = elfMagic

/-- `common.check_shared_object_architecture`: probe byte 4 of the ELF
header.  An unreadable file yields the per-exception error string (any
string distinct from the three regular outcomes). -/
def check_shared_object_architecture (fs : FileBytes) (file_path : String) : String :=
  match fs file_path with
  | none => "Error determining architecture: unreadable"
  | some bs =>
    let header := bs.take 5
    if header.length < 5 then "Unknown architecture"
    else if header.take 4 = elfMagic then
      if header.getD 4 0 = 1 then "32-bit"
      else if header.getD 4 0 = 2 then "64-bit"
      else "Unknown architecture"
    else "Unknown architecture"

/-- `aosp_post_build_injector.check_binary_architecture` (same logic as
`check_shared_object_architecture`, duplicated in the source). -/
def check_binary_architecture (fs : FileBytes) (binary_path : String) : String :=
  check_shared_object_architecture fs binary_path

/-- The post-injector rule set (`POST_INJECTOR_CONFIG`): one field per key
the embedded code reads.  Dict-valued keys become association lists. -/
structure Config where
  SKIPPED_BINARY_LIST : List String := []
  SKIPPED_FILE_ENDING_LIST : List String := []
  ALLOW_ONLY_EXTENSION_LIST : List String := []
  SKIPPED_FILE_EXTENSION_LIST_GENERAL : List String := []
  SKIPPED_KEYWORD_LIST : List String := []
  SKIPPED_APEX_KEYWORD_LIST : List String := []
  SKIPPED_APP_KEYWORDLIST : List String := []
  SKIPPED_APP_LIST : List String := []
  ALLOWED_APP_INJECTION_KEYWORD : List String := []
  DISABLE_BINARY_INJECTION : Bool := false
  ENABLE_SHARED_LIBRARIES_INJECTION_IF_NOT_EXISTS : Bool := false
  SKIPPED_SHARED_LIBRARIES_EVEN_IF_NOT_EXISTS_LIST : List String := []
  SKIPPED_KEYWORD_SHARED_LIBRARIES_EVEN_IF_NOT_EXISTS_LIST : List String := []
  ENABLE_ALLOW_APEX_INJECT_ALWAYS_KEYWORD_NOT_IN_LIST : Bool := false
  ALLOW_APEX_INJECT_ALWAYS_KEYWORD_NOT_IN_LIST : List String := []
  ALLOW_APEX_INJECT_ALWAYS_KEYWORD_LIST : List String := []
  DISALLOW_APP_INJECTION : Bool := false
  DISABLE_JAVA_LIBRARIES_INJECTION : Bool := false
  ALLOW_ALL_JAVA_LIBRARIES_INJECTION : Bool := false
  DISABLE_MISC_INJECTION : Bool := false
  ALLOW_APP_INJECT_ALWAYS : List String := []
  ALLOW_APP_INJECT_ALWAYS_KEYWORD_LIST : List String := []
  ALLOW_FILE_INJECT_ALWAYS : List String := []
  ALLOW_FILE_INJECT_ALWAYS_KEYWORD_LIST : List String := []
  SKIPPED_FILE_EXTENSION_LIST_INDIRECT_INJECTION : List String := []
  INDIRECT_INJECTION_FILE_MAPPING : List (String × String) := []
  ALLOW_APEX_INJECTION_MERGE : Bool := false
  ALLOW_APEX_MERGE_KEYWORD_LIST : List String := []
  APEX_BINARY_ISOLATED_NAMESPACE_LIST : List String := []
  USE_ISOLATED_NAMESPACE : Bool := false
  ISOLATED_NAMESPACE_NATIVE_LIBRARY_LIST : List String := []
  DIRECT_INJECTION_TARGET_PATH_OVERWRITE : List (String × String) := []
  OVERWRITE_APP_PROCESS_32 : Bool := false

/-- A rule set with every list empty and every toggle off. -/
def emptyConfig : Config := {}

/-! ### Module classifier (`aosp_module_type.py`) -/

/-- `aosp_module_type.is_file_inject_allowed`. -/
def is_file_inject_allowed (cfg : Config) (file_name : String) : Bool :=
  if cfg.SKIPPED_BINARY_LIST.contains file_name then false
  else if cfg.SKIPPED_FILE_ENDING_LIST.any (fun e => pyEndsWith file_name e) then false
  else true

/-- `aosp_module_type.is_file_extension_allowed`. -/
def is_file_extension_allowed (cfg : Config) (file_extension : String) : Bool :=
  if cfg.ALLOW_ONLY_EXTENSION_LIST.length > 0
      ∧ ¬ cfg.ALLOW_ONLY_EXTENSION_LIST.contains file_extension then false
  else if cfg.SKIPPED_FILE_EXTENSION_LIST_GENERAL.contains file_extension then false
  else true

/-- `aosp_module_type.is_file_path_allowed`. -/
def is_file_path_allowed (cfg : Config) (file_path : String) : Bool :=
  ¬ cfg.SKIPPED_KEYWORD_LIST.any (fun k => pyIn k file_path)

/-- The base (tentative) classification of `get_module_type`, lines 75–97:
returns the module type together with the (possibly apex-normalised)
`file_name` variable, whose `_compressed`/`_trimmed` markers are stripped
in the container branch. -/
def base_classification (fs : FileBytes) (source_file_path parent_dir file_name
    file_extension : String) : String × String :=
  if file_extension = "" ∧ (is_elf_binary fs source_file_path
      ∨ pyIn "bin" parent_dir ∨ pyIn "xbin" parent_dir) then
    ("EXECUTABLES", file_name)
  else if file_extension = ".jar" then ("JAVA_LIBRARIES", file_name)
  else if file_extension = ".so" then ("SHARED_LIBRARIES", file_name)
  else if file_extension = ".apk" then ("APPS", file_name)
  else if file_extension = ".xml" then ("STATIC_CONFIG", file_name)
  else if pyIn "/etc/" source_file_path then ("ETC", file_name)
  else if file_extension = ".apex" ∨ file_extension = ".capex" then
    ("ETC",
      if pyIn "_compressed" file_name then pyReplace file_name "_compressed" ""
      else if pyIn "_trimmed" file_name then pyReplace file_name "_trimmed" ""
      else file_name)
  else ("MISC", file_name)

/-- The final override of `get_module_type`, lines 163–166: filename listed
in `ALLOW_FILE_INJECT_ALWAYS` or path containing an
`ALLOW_FILE_INJECT_ALWAYS_KEYWORD_LIST` keyword. -/
def allow_file_inject_always_override (cfg : Config)
    (file_name source_file_path : String) : Bool :=
  cfg.ALLOW_FILE_INJECT_ALWAYS.contains file_name
    || cfg.ALLOW_FILE_INJECT_ALWAYS_KEYWORD_LIST.any (fun k => pyIn k source_file_path)

/-- Override rules of `get_module_type` up to the global allow/deny checks
(lines 100–114): app keyword/name deny rules, the app allow keyword, the
binary-injection toggle and the global path/extension/filename rules. -/
def override_pre (cfg : Config) (source_file_path file_extension file_name
    file_name_no_ext tmp_module_type : String) : String :=
  let m1 := if tmp_module_type = "APPS"
      ∧ cfg.SKIPPED_APP_KEYWORDLIST.any (fun k => pyIn k file_name) then "SKIPPED"
    else tmp_module_type
  let m2 := if m1 = "APPS" ∧ (cfg.SKIPPED_APP_LIST.contains file_name_no_ext
      ∨ cfg.SKIPPED_APP_LIST.contains file_name) then "SKIPPED" else m1
  let m3 := if m2 = "APPS"
      ∧ cfg.ALLOWED_APP_INJECTION_KEYWORD.any (fun k => pyIn k file_name) then "APPS"
    else m2
  let m4 := if (m3 = "EXECUTABLES" ∨ m3 = "ETC") ∧ cfg.DISABLE_BINARY_INJECTION then
      "SKIPPED" else m3
  if ¬ is_file_path_allowed cfg source_file_path
      ∨ (file_extension ≠ "" ∧ ¬ is_file_extension_allowed cfg file_extension)
      ∨ ¬ is_file_inject_allowed cfg file_name then "SKIPPED" else m4

/-- Override rules of `get_module_type` after the already-injected check
(lines 124–166): the shared-library if-not-exists rule, apex keyword
rules, per-category toggles, and the two final "always allow" rules. -/
def override_post (cfg : Config) (source_file_path file_extension file_name
    file_name_no_ext tmp_module_type : String) (is_apex : Bool) (m6 : String) : String :=
  let m7 := if cfg.ENABLE_SHARED_LIBRARIES_INJECTION_IF_NOT_EXISTS
      ∧ file_extension = ".so" then
      (if cfg.SKIPPED_SHARED_LIBRARIES_EVEN_IF_NOT_EXISTS_LIST.contains file_name
          ∨ cfg.SKIPPED_KEYWORD_SHARED_LIBRARIES_EVEN_IF_NOT_EXISTS_LIST.any
              (fun k => pyIn k file_name) then "SKIPPED"
       else tmp_module_type)
    else m6
  let m8 := if is_apex ∧ cfg.SKIPPED_APEX_KEYWORD_LIST.any (fun k => pyIn k file_name)
    then "SKIPPED" else m7
  let m9 := if cfg.ENABLE_ALLOW_APEX_INJECT_ALWAYS_KEYWORD_NOT_IN_LIST
      ∧ is_apex ∧ cfg.ALLOW_APEX_INJECT_ALWAYS_KEYWORD_NOT_IN_LIST.all
          (fun k => ¬ pyIn k file_name) then "ETC" else m8
  let m10 := if is_apex ∧ cfg.ALLOW_APEX_INJECT_ALWAYS_KEYWORD_LIST.any
      (fun k => pyIn k file_name) then "ETC" else m9
  let m11 := if m10 = "APPS" ∧ cfg.DISALLOW_APP_INJECTION then "SKIPPED" else m10
  let m12 := if m11 = "JAVA_LIBRARIES" ∧ cfg.DISABLE_JAVA_LIBRARIES_INJECTION then
      "SKIPPED"
    else if m11 = "JAVA_LIBRARIES" ∧ cfg.ALLOW_ALL_JAVA_LIBRARIES_INJECTION then
      tmp_module_type
    else m11
  let m13 := if m12 = "MISC" ∧ cfg.DISABLE_MISC_INJECTION then "SKIPPED" else m12
  let m14 := if file_extension = ".apk" ∧ (cfg.ALLOW_APP_INJECT_ALWAYS.contains file_name
      ∨ cfg.ALLOW_APP_INJECT_ALWAYS_KEYWORD_LIST.any (fun k => pyIn k file_name)) then
      tmp_module_type else m13
  if allow_file_inject_always_override cfg file_name source_file_path then
    tmp_module_type else m14

/-- `aosp_module_type.get_module_type`.  Returns the pair
`(module_type, tmp_module_type)`.  The already-injected check iterates the
caller-supplied `pre_injector_package_list`; when that argument is `None`
(the Python default) and the intermediate module type is in
`{SHARED_LIBRARIES, ETC, APPS}`, the `for` loop over `None` raises
`TypeError`, modelled with `Except.error`. -/
def get_module_type (fs : FileBytes) (cfg : Config) (source_file_path0 : String)
    (pre_injector_package_list : Option (List String)) :
    Except String (String × String) :=
  let parent_dir := pyDirname source_file_path0
  let source_file_path := pyStrip source_file_path0
  let file_extension := (pySplitext source_file_path).2
  let file_name0 := pyBasename source_file_path
  let file_name_no_ext := (pySplitext file_name0).1
  let is_apex := file_extension = ".apex" ∨ file_extension = ".capex"
  let base := base_classification fs source_file_path parent_dir file_name0 file_extension
  let tmp_module_type := base.1
  let file_name := base.2
  let m5 := override_pre cfg source_file_path file_extension file_name file_name_no_ext
    tmp_module_type
  let needsPkgs := m5 = "SHARED_LIBRARIES" ∨ m5 = "ETC" ∨ m5 = "APPS"
  let rest := fun (pkgs : List String) =>
    let m6 := if needsPkgs ∧ pkgs.any (fun package_name =>
        let stripped := pyStrip (pyReplace (pyReplace package_name "FMD_APEX" "") "fmd" "")
        file_name = stripped ∨ file_name_no_ext = stripped) then "SKIPPED" else m5
    (override_post cfg source_file_path file_extension file_name file_name_no_ext
      tmp_module_type is_apex m6, tmp_module_type)
  match pre_injector_package_list with
  | none =>
    if needsPkgs then
      .error ("TypeError: argument of type NoneType is not iterable: " ++ source_file_path)
    else .ok (rest [])
  | some pkgs => .ok (rest pkgs)

/-! ### ABI/identity matcher (`aosp_post_build_injector.py`) -/

/-- `config_post_injector.MODULE_TYPE_ABI_COMPATIBLE`. -/
def MODULE_TYPE_ABI_COMPATIBLE : List String := ["SHARED_LIBRARIES", "EXECUTABLES", "ETC"]

/-- `config_post_injector.FOLDER_NAME_OBJECTS`. -/
def FOLDER_NAME_OBJECTS : String := "obj"

/-- `aosp_post_build_injector.is_abi_compatible`. -/
def is_abi_compatible (fs : FileBytes) (candidate_path file_path : String) : Bool :=
  let candidate_arch := check_binary_architecture fs candidate_path
  let src_arch := check_binary_architecture fs file_path
  if candidate_arch == "Unknown architecture" || candidate_arch != src_arch then false
  else true

/-- `aosp_post_build_injector.is_parent_dir_arm_and_target_arm`: prevents
matching of arm to arm64 and vice versa. -/
def is_parent_dir_arm_and_target_arm (file_path candidate_path : String) : Bool :=
  let parent_dir_file_path := pyBasename (pyDirname file_path)
  let parent_dir_candidate := pyBasename (pyDirname candidate_path)
  if parent_dir_file_path == "arm64" then pyIn "arm64" parent_dir_candidate
  else if parent_dir_file_path == "arm" then
    !(pyIn "arm64" parent_dir_candidate) && pyIn "arm" parent_dir_candidate
  else false

/-- `aosp_post_build_injector.check_file_compatibility`.  `is_match` starts
`True`; the ELF word-size probe runs only for module types in
`MODULE_TYPE_ABI_COMPATIBLE` with an ELF source, the `arm` parent-directory
rule applies when the source path mentions `arm`, and `JAVA_LIBRARIES`
overrides everything to `True` at the end. -/
def check_file_compatibility (fs : FileBytes) (file_path candidate_path
    module_type : String) : Bool :=
  let m1 :=
    if MODULE_TYPE_ABI_COMPATIBLE.contains module_type && is_elf_binary fs file_path then
      is_abi_compatible fs candidate_path file_path
        && (check_shared_object_architecture fs candidate_path
            == check_shared_object_architecture fs file_path)
    else true
  let m2 :=
    if pyIn "arm" file_path then
      m1 && is_parent_dir_arm_and_target_arm file_path candidate_path
    else m1
  if module_type == "JAVA_LIBRARIES" then true else m2

/-- Python `for x in l: if not p(x): l.remove(x)` — the in-place removal in
the exact-match pre-filter of `search_original_file_in_obj` (lines
804-808).  Removing during iteration skips the element following each
removed one, which this recursion reproduces (list elements are distinct
paths). -/
def removeIter (p : String → Bool) : List String → List String
  | [] => []
  | [x] => if p x then [x] else []
  | x :: y :: rest =>
    if p x then x :: removeIter p (y :: rest) else y :: removeIter p rest

/-- The accept decision of the candidate loop of
`search_original_file_in_obj` (lines 820-876): a candidate `file` is
appended to the result list exactly when this predicate holds.  The loop
body only logs otherwise. -/
def search_obj_keep (fs : FileBytes) (cfg : Config)
    (partition_name module_type file_path file_name module_name
      replace_intermediate : String) (file : String) : Bool :=
  let root := pyDirname file
  let candidate_path := file
  let candidate_file_name := pyBasename candidate_path
  let root_folder_name_stripped :=
    pyBasename (pyReplace (pyReplace (pyReplace root replace_intermediate "")
      ("_" ++ partition_name) "") "v1_prebuilt" "")
  if (pyIn "vndk" candidate_path && !(pyIn "vndk" file_path))
      || (pyIn "ndk" candidate_path && !(pyIn "ndk" file_path)) then false
  else if !(check_file_compatibility fs file_path candidate_path module_type) then false
  else if candidate_file_name == file_name then
    if partition_name == "" || pyIn partition_name root then
      if pyIn "com.android" candidate_path && !(pyIn "com.android" file_path) then false
      else true
    else false
  else if module_name == root_folder_name_stripped && pyIn partition_name root then
    let file_extension_src := (pySplitext file_name).2
    let file_extension_obj := (pySplitext file).2
    if pyStrip (pyLower file_extension_src) == pyStrip (pyLower file_extension_obj) then
      true
    else if (file_extension_src == ".apex" && file_extension_obj == ".capex")
        || (file_extension_src == ".capex" && file_extension_obj == ".apex") then
      cfg.ALLOW_APEX_INJECTION_MERGE
    else false
  else false

/-- `aosp_post_build_injector.search_original_file_in_obj`.  The directory
walk `get_all_files` is an oracle (`objFiles`).  The default arguments
`replace_intermediate="_intermediates"` and `exact_match_files=True` are
never overridden by the callers and are inlined.  Returns the surviving
candidate list, or `none` when it is empty. -/
def search_original_file_in_obj (fs : FileBytes) (cfg : Config)
    (objFiles : String → List String)
    (partition_name0 module_type file_path file_name target_out_path : String) :
    Option (List String) :=
  let replace_intermediate := "_intermediates"
  let target_obj_path0 := pyJoin target_out_path FOLDER_NAME_OBJECTS
  let target_obj_path :=
    if !(pyEndsWith target_obj_path0 "/") then target_obj_path0 ++ "/" else target_obj_path0
  let search_folder_path :=
    if !(module_type == "MISC" || module_type == "STATIC_CONFIG") then
      target_obj_path ++ module_type
    else target_obj_path
  let partition_name :=
    if partition_name0 == "super" || partition_name0 == "system" then "" else partition_name0
  let file_path_list0 := objFiles search_folder_path
  let matches0 := file_path_list0.filter (fun f => pyBasename f == file_name)
  let file_path_list :=
    if matches0 ≠ [] then
      removeIter (fun m => check_file_compatibility fs file_path m module_type) matches0
    else
      let file_extension := (pySplitext file_name).2
      file_path_list0.filter (fun f => (pySplitext f).2 == file_extension)
  let module_name := (pySplitext file_name).1
  let result_file_path_list := file_path_list.filter
    (search_obj_keep fs cfg partition_name module_type file_path file_name module_name
      replace_intermediate)
  if result_file_path_list.length > 0 then some result_file_path_list else none

/-! ### Injection strategy engine (`aosp_post_build_injector.py`)

Filesystem reads/writes and external tool invocations are oracle fields of
`Env`; every filesystem mutation performed by the embedded code is
recorded as an `Effect`, so frame properties ("nothing else was touched")
are statements about the effect trace. -/

/-- One filesystem/external mutation performed by the pipeline. -/
inductive Effect where
  | createLock (path : String)
  | writeMarker (path : String)
  | copyFile (src dst : String)
  | chmodExec (path : String)
  | apexSymlink (filename src : String)
  | renamePath (src dst : String)
  | extractCapex (src dst : String)
  | apkSign (path : String)
  | apexMerge (path : String)
  | apexRepack (path : String)
  | apexAdd (path : String)
  | backupCreate (src dst : String)
  | backupRestore (src dst : String)
  | removeFile (path : String)
  | replaceOriginal (src dst : String)
  deriving Repr, DecidableEq

/-- An indirect-injection record: either `(file_path, candidate, module_type)`
or the not-found tuple `(error_message, None, module_type)`. -/
abbrev InjObj := String × Option String × String

/-- A direct-injection record `(file_path, target_path, module_type)`.
(The md5 extension of `search_and_inject` lines 572-577 never happens:
`hashlib.md5` is applied to the `str` path, which raises `TypeError` and is
swallowed by the bare `except`.) -/
abbrev InjPart := String × String × String

/-- The oracle environment of the post-build injector: filesystem state,
external tool outcomes, rule set and caller-supplied arguments.  Functions
whose only role is I/O (`get_all_files`, hashing, copying) or that drive
external processes (APEX pipeline, APK signing) are abstracted as fields;
`get_target_injection_path` (a path computation interleaved with
`os.makedirs`) and the regex-based `remove_vendor_name_from_path` are
likewise abstracted. -/
structure Env where
  bytes : FileBytes := fun _ => none
  exists_ : String → Bool := fun _ => false
  islink : String → Bool := fun _ => false
  isfile : String → Bool := fun _ => true
  objFiles : String → List String := fun _ => []
  hashOf : String → Option String := fun _ => some "d41d8cd9"
  copyOk : String → String → Bool := fun _ _ => true
  chmodOk : String → Bool := fun _ => true
  symlinkInjectOk : String → Bool := fun _ => true
  renameOk : String → String → Bool := fun _ _ => true
  prepareCapexOk : String → Bool := fun _ => false
  get_target_injection_path : String → String → String → String := fun p _ _ => p
  remove_vendor_name_from_path : String → String := fun p => p
  cfg : Config := {}
  pkgs : Option (List String) := some []
  aosp_version : Option Nat := none
  handleApexModulesResult : String → Except String (Bool × String) := fun _ => .ok (true, "")
  repackageApexResult : String → Except String (Bool × String) := fun _ => .ok (true, "")
  addNewApexFileResult : String → Except String (Bool × String) := fun _ => .ok (true, "")
  apkSigningResult : String → Bool × String × String := fun _ => (true, "", "")

/-- `aosp_post_build_injector.set_executable_permission`: `chmod +x` is
attempted only for existing regular non-link files whose extension is
`.so` (the `file_extension is None` disjunct is always false since
`splitext` returns `""`, never `None`); returns `False` exactly when the
attempted `chmod` raises. -/
def set_executable_permission (env : Env) (file_path : String) : Bool × List Effect :=
  let file_extension := (pySplitext file_path).2
  if env.exists_ file_path && !(env.islink file_path) && env.isfile file_path
      && file_extension == ".so" then
    if env.chmodOk file_path then (true, [.chmodExec file_path]) else (false, [])
  else (true, [])

/-- `aosp_post_build_injector.handle_special_matching`. -/
def handle_special_matching (source_file_injection_path : String) : String :=
  if pyEndsWith source_file_injection_path "app_process32" then
    pyReplace source_file_injection_path "app_process32" "app_process64"
  else source_file_injection_path

/-- `aosp_post_build_injector.inject_file_into_partition` (direct
injection).  Returns the (possibly overridden) target path; the only raise
that escapes is the `PermissionError` of line 1084 (target absent and
`set_executable_permission` failed) — the identical raise of line 1062
sits inside the surrounding `try` and is swallowed. -/
def inject_file_into_partition (env : Env) (source_file_path0
    target_file_injection_path0 aosp_path partition_name lunch_target : String) :
    Except String String × List Effect :=
  let filename := pyBasename target_file_injection_path0
  let source_file_path :=
    if env.cfg.OVERWRITE_APP_PROCESS_32 then handle_special_matching source_file_path0
    else source_file_path0
  let target_file_injection_path :=
    match List.lookup filename env.cfg.DIRECT_INJECTION_TARGET_PATH_OVERWRITE with
    | some rel =>
      if pyIn "phone64" lunch_target then
        pyJoin3 aosp_path "out/target/product/emulator64_arm64" rel
      else
        pyJoin3 aosp_path "out/target/product/emulator_arm64" rel
    | none => target_file_injection_path0
  if env.cfg.APEX_BINARY_ISOLATED_NAMESPACE_LIST.contains filename
      || env.cfg.APEX_BINARY_ISOLATED_NAMESPACE_LIST.contains source_file_path then
    (.ok target_file_injection_path, [.apexSymlink filename source_file_path])
  else if env.exists_ target_file_injection_path then
    if env.islink target_file_injection_path then
      if env.copyOk source_file_path target_file_injection_path then
        (.ok target_file_injection_path,
          [.copyFile source_file_path target_file_injection_path])
      else (.ok target_file_injection_path, [])
    else
      if env.isfile source_file_path then
        match env.hashOf source_file_path, env.hashOf target_file_injection_path with
        | some _, some _ =>
          if env.copyOk source_file_path target_file_injection_path then
            let se := set_executable_permission env target_file_injection_path
            (.ok target_file_injection_path,
              .copyFile source_file_path target_file_injection_path :: se.2)
          else (.ok target_file_injection_path, [])
        | _, _ => (.ok target_file_injection_path, [])
      else (.ok target_file_injection_path, [])
  else
    let copyEffs :=
      if !(env.exists_ source_file_path) then ([] : List Effect)
      else if env.isfile source_file_path && !(env.islink source_file_path) then
        if env.copyOk source_file_path target_file_injection_path then
          [Effect.copyFile source_file_path target_file_injection_path]
        else []
      else if env.islink source_file_path then
        if env.copyOk source_file_path target_file_injection_path then
          [Effect.copyFile source_file_path target_file_injection_path]
        else []
      else []
    let se := set_executable_permission env target_file_injection_path
    if se.1 then (.ok target_file_injection_path, copyEffs ++ se.2)
    else
      (.error ("Permission denied for not existing file inject: "
          ++ target_file_injection_path),
        copyEffs ++ se.2)

/-- The destination chosen by `inject_file_into_obj` (lines 1188-1195) for
a candidate under the container mount namespace: `framework` for Java
libraries, `bin` for the literal module type `BINARY`, `etc` otherwise. -/
def apex_route_destination (module_type file_name : String) : String :=
  if module_type == "JAVA_LIBRARIES" then "/system/framework/" ++ file_name
  else if module_type == "BINARY" then "/bin/" ++ file_name
  else "/etc/" ++ file_name

/-- `aosp_post_build_injector.inject_file_into_obj` (indirect injection of
one candidate).  The two `compute_file_hash` calls of lines 1183-1184 sit
outside the `try` and propagate when a file is unreadable; everything
inside the `try` is converted to `is_injected = False`. -/
def inject_file_into_obj (env : Env) (source_file_path original_file_path
    module_type aosp_path partition_name lunch_target : String) :
    Except String Bool × List Effect :=
  let filename := pyBasename source_file_path
  match env.hashOf source_file_path with
  | none => (.error ("Error computing file hash: " ++ source_file_path), [])
  | some _ =>
  match env.hashOf original_file_path with
  | none => (.error ("Error computing file hash: " ++ original_file_path), [])
  | some _ =>
  let file_name := pyBasename original_file_path
  if pyIn "/apex/" original_file_path then
    let new_file_path := apex_route_destination module_type file_name
    if env.copyOk source_file_path new_file_path then
      (.ok true, [.copyFile source_file_path new_file_path])
    else (.ok false, [])
  else if env.cfg.APEX_BINARY_ISOLATED_NAMESPACE_LIST.contains filename
      || env.cfg.APEX_BINARY_ISOLATED_NAMESPACE_LIST.contains source_file_path then
    (.ok (env.symlinkInjectOk source_file_path), [.apexSymlink filename source_file_path])
  else
    if env.copyOk source_file_path original_file_path then
      let se := set_executable_permission env original_file_path
      (.ok true, .copyFile source_file_path original_file_path :: se.2)
    else (.ok false, [])

/-- The matcher result shape: the explicit mapping yields a single path,
`search_original_file_in_obj` yields a list (Python distinguishes them
with `isinstance(..., list)`). -/
inductive OrigPath where
  | single (p : String)
  | many (ps : List String)

/-- The `for original_file_path in original_file_path_list` loop of
`indirect_injection` (lines 523-526): every candidate is injected; the
recorded pair and `is_injected` flag keep the values of the last
iteration. -/
def inject_obj_list (env : Env) (file_path module_type aosp_path partition_name
    lunch_target : String) (acc : Option InjObj × Bool) :
    List String → Except String (Option InjObj × Bool) × List Effect
  | [] => (.ok acc, [])
  | p :: rest =>
    match inject_file_into_obj env file_path p module_type aosp_path partition_name
        lunch_target with
    | (.error e, effs) => (.error e, effs)
    | (.ok b, effs) =>
      let r := inject_obj_list env file_path module_type aosp_path partition_name
        lunch_target (some (file_path, some p, module_type), b) rest
      (r.1, effs ++ r.2)

/-- `aosp_post_build_injector.indirect_injection`.  Returns
`(inj_obj, inj_partition, is_injected)`; `is_injected` is `none` for the
two early policy returns (Python `None`), `some b` otherwise. -/
def indirect_injection (env : Env) (target_file_injection_path file_name
    target_out_path partition_name module_type file_path : String)
    (inj_partition : Option InjPart) (aosp_path lunch_target : String) :
    Except String (Option InjObj × Option InjPart × Option Bool) × List Effect :=
  let file_ext := (pySplitext file_name).2
  if env.cfg.SKIPPED_FILE_EXTENSION_LIST_INDIRECT_INJECTION.contains file_ext then
    (.ok (none, inj_partition, none), [])
  else if !(env.cfg.ALLOW_FILE_INJECT_ALWAYS.contains file_name)
      && env.cfg.ENABLE_SHARED_LIBRARIES_INJECTION_IF_NOT_EXISTS
      && file_ext == ".so" then
    (.ok (none, inj_partition, none), [])
  else
    let step1 : Option OrigPath :=
      if (List.lookup file_name env.cfg.INDIRECT_INJECTION_FILE_MAPPING).isSome then
        if !(check_file_compatibility env.bytes file_path target_file_injection_path
            module_type) then none
        else (List.lookup file_name env.cfg.INDIRECT_INJECTION_FILE_MAPPING).map
          (fun rel => OrigPath.single (pyJoin target_out_path rel))
      else
        (search_original_file_in_obj env.bytes env.cfg env.objFiles partition_name
          module_type file_path file_name target_out_path).map OrigPath.many
    let original_file_path : Option OrigPath :=
      match step1 with
      | some x => some x
      | none =>
        let file_path_vendor_replaced := env.remove_vendor_name_from_path file_path
        let file_name_vendor_replaced := pyBasename file_path_vendor_replaced
        (search_original_file_in_obj env.bytes env.cfg env.objFiles partition_name
          module_type file_path_vendor_replaced file_name_vendor_replaced
          target_out_path).map OrigPath.many
    match original_file_path with
    | some (OrigPath.many ps) =>
      match inject_obj_list env file_path module_type aosp_path partition_name
          lunch_target (none, false) ps with
      | (.error e, effs) => (.error e, effs)
      | (.ok (o, b), effs) => (.ok (o, inj_partition, some b), effs)
    | some (OrigPath.single p) =>
      match inject_file_into_obj env file_path p module_type aosp_path partition_name
          lunch_target with
      | (.error e, effs) => (.error e, effs)
      | (.ok b, effs) =>
        (.ok (some (file_path, some p, module_type), inj_partition, some b), effs)
    | none =>
      (.ok (some ("Original file not found for indirect injection: " ++ file_path
          ++ " | " ++ file_name, none, module_type), inj_partition, some false), [])

/-- `aosp_post_build_injector.search_and_inject`: the per-file injection
state machine.  Container files choose direct injection only when the
target is absent and no merge keyword matches; other files fall back to
direct injection when `indirect_injection` reported `is_injected == False`
(the fallback keeps the indirect record `inj_obj`). -/
def search_and_inject (env : Env) (partition_name module_type file_path
    target_out_path aosp_path lunch_target : String) :
    Except String (Option InjObj × Option InjPart) × List Effect :=
  let file_name := pyBasename file_path
  let file_extension := (pySplitext file_name).2
  let target_file_injection_path :=
    env.get_target_injection_path file_path partition_name target_out_path
  if file_extension == ".apex" || file_extension == ".capex" then
    if !(env.exists_ target_file_injection_path)
        && !(env.cfg.ALLOW_APEX_MERGE_KEYWORD_LIST.any
          (fun k => pyIn k (pyBasename target_file_injection_path))) then
      match inject_file_into_partition env file_path target_file_injection_path
          aosp_path partition_name lunch_target with
      | (.error e, effs) => (.error e, effs)
      | (.ok tp, effs) => (.ok (none, some (file_path, tp, module_type)), effs)
    else
      match indirect_injection env target_file_injection_path file_name target_out_path
          partition_name module_type file_path none aosp_path lunch_target with
      | (.error e, effs) => (.error e, effs)
      | (.ok (o, p, _), effs) => (.ok (o, p), effs)
  else if !(env.exists_ target_file_injection_path) then
    match inject_file_into_partition env file_path target_file_injection_path
        aosp_path partition_name lunch_target with
    | (.error e, effs) => (.error e, effs)
    | (.ok tp, effs) => (.ok (none, some (file_path, tp, module_type)), effs)
  else
    match indirect_injection env target_file_injection_path file_name target_out_path
        partition_name module_type file_path none aosp_path lunch_target with
    | (.error e, effs) => (.error e, effs)
    | (.ok (o, p, is_injected), effs) =>
      if is_injected == some false then
        match inject_file_into_partition env file_path target_file_injection_path
            aosp_path partition_name lunch_target with
        | (.error e, effs2) => (.error e, effs ++ effs2)
        | (.ok tp, effs2) =>
          (.ok (o, some (file_path, tp, module_type)), effs ++ effs2)
      else (.ok (o, p), effs)

/-! ### Concurrency orchestrator (`aosp_post_build_injector.py`)

The worker is modelled sequentially: the completion-marker state is an
explicit `String → Bool` map threaded through the calls (per-file
`FileLock` mutual exclusion has no observable effect in a single-threaded
model beyond creating the lock file, which is recorded as an effect). -/

/-- `aosp_post_build_injector.rename_file`: renames within the same
directory and re-raises on failure. -/
def rename_file (env : Env) (file_path new_name : String) :
    Except String String × List Effect :=
  let new_file_path := pyJoin (pyDirname file_path) new_name
  if env.renameOk file_path new_name then
    (.ok new_file_path, [.renamePath file_path new_file_path])
  else (.error ("Error renaming file " ++ file_path ++ " to " ++ new_name), [])

/-- `aosp_post_build_injector.replace_capex_with_apex`: extract the inner
container (`prepare_capex`, which returns the `.apex` sibling path on
success and `None` on any caught failure), rename the original to
`.original_capex`, and continue with the extracted path; with no
extraction the original path is kept. -/
def replace_capex_with_apex (env : Env) (file_path : String) :
    Except String String × List Effect :=
  let input_folder_path := pyDirname file_path
  let capex_filename := pyBasename file_path
  if env.prepareCapexOk file_path then
    let extracted := pyJoin input_folder_path (pyReplace capex_filename ".capex" ".apex")
    match rename_file env file_path (capex_filename ++ ".original_capex") with
    | (.ok _, effs) => (.ok extracted, .extractCapex file_path extracted :: effs)
    | (.error e, effs) => (.error e, .extractCapex file_path extracted :: effs)
  else (.ok file_path, [])

/-- `aosp_post_build_injector.handle_app_modules`: APK signing via
`handle_apk_signing`, converted to an optional error message. -/
def handle_app_modules (env : Env) (file_path : String) : Option String × List Effect :=
  let r := env.apkSigningResult file_path
  if r.1 then (none, [.apkSign file_path])
  else
    (some ("Error signing APK file: " ++ file_path ++ "|" ++ r.2.2), [.apkSign file_path])

/-- The container-file preprocessing of `process_file_concurrently`
(lines 359-367): `.capex` extraction, the `tzdata` version-stripping
rename and the `bluetooth`→`btservices` rename (versions above 12).
`filename` stays the basename of the original path throughout, exactly as
in the source. -/
def apex_preprocess (env : Env) (file_path filename : String) :
    Except String String × List Effect :=
  let step1 : Except String String × List Effect :=
    if pyEndsWith file_path ".capex" then replace_capex_with_apex env file_path
    else (.ok file_path, [])
  match step1 with
  | (.error e, effs) => (.error e, effs)
  | (.ok fp1, effs1) =>
    let step2 : Except String String × List Effect :=
      if pyIn "tzdata" fp1 || pyIn "tzdata" filename then
        rename_file env fp1 (subTzdata filename)
      else (.ok fp1, [])
    match step2 with
    | (.error e, effs2) => (.error e, effs1 ++ effs2)
    | (.ok fp2, effs2) =>
      let bluetoothCond :=
        (match env.aosp_version with | some v => decide (12 < v) | none => false)
          && pyIn "bluetooth" filename
      let step3 : Except String String × List Effect :=
        if bluetoothCond then
          rename_file env fp2 (pyReplace filename "bluetooth" "btservices")
        else (.ok fp2, [])
      match step3 with
      | (.error e, effs3) => (.error e, effs1 ++ effs2 ++ effs3)
      | (.ok fp3, effs3) => (.ok fp3, effs1 ++ effs2 ++ effs3)

/-- The container branch of `process_file_concurrently` (lines 358-392):
after preprocessing, merge-eligible files run the APEX merge pipeline —
whose failure is turned into `raise Exception(error_message)` — and all
other container files run the standalone repackage, whose failure only
records an error message. -/
def apex_branch (env : Env) (file_path filename : String) :
    Except String (Option String × String) × List Effect :=
  match apex_preprocess env file_path filename with
  | (.error e, effs) => (.error e, effs)
  | (.ok fp, effs) =>
    if env.cfg.ALLOW_APEX_INJECTION_MERGE
        && env.cfg.ALLOW_APEX_MERGE_KEYWORD_LIST.any (fun k => pyIn k filename)
        && pyIn "ALL_FILES/system/" fp then
      match env.handleApexModulesResult fp with
      | .ok (true, _) => (.ok (none, fp), effs ++ [.apexMerge fp])
      | .ok (false, log) =>
        (.error ("Error handling merge APEX file: " ++ fp ++ "|" ++ log),
          effs ++ [.apexMerge fp])
      | .error e =>
        (.error ("Error handling merge APEX file: " ++ fp ++ "|Exception occurred: " ++ e),
          effs ++ [.apexMerge fp])
    else
      match env.repackageApexResult fp with
      | .ok (true, _) => (.ok (none, fp), effs ++ [.apexRepack fp])
      | .ok (false, log) =>
        (.ok (some ("Error handling repack APEX file: " ++ fp ++ "|" ++ log), fp),
          effs ++ [.apexRepack fp])
      | .error e =>
        (.ok (some ("Exception occurred: " ++ e), fp), effs ++ [.apexRepack fp])

/-- The `try` body of `process_file_concurrently` (lines 337-412): lock
acquisition, double-checked marker, classification, per-kind special
handling, and `search_and_inject` when no error was recorded. -/
def process_file_body (env : Env) (markers : String → Bool)
    (aosp_path file_path partition_name target_out_path lunch_target : String) :
    Except String (Option String × Option InjObj × Option InjPart) × List Effect :=
  let processed_marker := file_path ++ ".fmd-aecs-processed"
  let lockEffs := [Effect.createLock (file_path ++ ".fmd-aecs-lock")]
  if markers processed_marker then
    (.ok (some ("File already processed: " ++ file_path), none, none), lockEffs)
  else
    match get_module_type env.bytes env.cfg file_path env.pkgs with
    | .error e => (.error e, lockEffs)
    | .ok (module_type, _tmp) =>
      if module_type == "SKIPPED" then
        (.ok (some ("Skipped File post-inject (Keyword/Extension/Filename): " ++ file_path
          ++ " | module_type: " ++ module_type), none, none), lockEffs)
      else
        let filename := pyBasename file_path
        let file_extension := (pySplitext file_path).2
        let branchRes : Except String (Option String × String) × List Effect :=
          if module_type == "APPS" && pyLower file_extension == ".apk" then
            let r := handle_app_modules env file_path
            (.ok (r.1, file_path), r.2)
          else if pyLower file_extension == ".apex" || pyLower file_extension == ".capex" then
            apex_branch env file_path filename
          else if module_type == "EXECUTABLES" && is_elf_binary env.bytes file_path then
            if env.cfg.APEX_BINARY_ISOLATED_NAMESPACE_LIST.contains filename then
              match env.addNewApexFileResult file_path with
              | .ok (true, _) => (.ok (none, file_path), [.apexAdd file_path])
              | .ok (false, log) =>
                (.ok (some ("Error adding APEX file: " ++ file_path ++ "|" ++ log),
                  file_path), [.apexAdd file_path])
              | .error e =>
                (.ok (some ("Error adding APEX file: " ++ file_path
                  ++ "|Exception occurred: " ++ e), file_path), [.apexAdd file_path])
            else (.ok (none, file_path), [])
          else (.ok (none, file_path), [])
        match branchRes with
        | (.error e, effs) => (.error e, lockEffs ++ effs)
        | (.ok (some em, _fp), effs) => (.ok (some em, none, none), lockEffs ++ effs)
        | (.ok (none, fp), effs) =>
          match search_and_inject env partition_name module_type fp target_out_path
              aosp_path lunch_target with
          | (.error e, effs2) => (.error e, lockEffs ++ effs ++ effs2)
          | (.ok (o, p), effs2) => (.ok (none, o, p), lockEffs ++ effs ++ effs2)

/-- `aosp_post_build_injector.process_file_concurrently`: early return when
the completion marker already exists; otherwise run the body, convert any
raise into an error result, and — in the `finally` — write the completion
marker unconditionally.  Returns `(result, markers, effects)`.
(The trailing `check_file_is_really_injected` only walks the tree and logs.) -/
def process_file_concurrently (env : Env) (markers : String → Bool)
    (aosp_path file_path partition_name target_out_path lunch_target : String) :
    (Option String × Option InjObj × Option InjPart) × (String → Bool) × List Effect :=
  let processed_marker := file_path ++ ".fmd-aecs-processed"
  if markers processed_marker then
    ((some ("File already processed: " ++ file_path), none, none), markers, [])
  else
    let body := process_file_body env markers aosp_path file_path partition_name
      target_out_path lunch_target
    let result :=
      match body.1 with
      | .ok r => r
      | .error e => (some e, none, none)
    (result, fun p => p == processed_marker || markers p,
      body.2 ++ [.writeMarker processed_marker])

/-- `aosp_post_build_injector.cleanup_files`: remove every
`.fmd-aecs-lock` / `.fmd-aecs-processed` file under the partition folder
(modelled on the marker map: paths under `folder_path` with one of the two
suffixes become absent). -/
def cleanup_files (folder_path : String) (markers : String → Bool) : String → Bool :=
  fun p =>
    if (pyEndsWith p ".fmd-aecs-lock" || pyEndsWith p ".fmd-aecs-processed")
        && pyStartsWith p folder_path then false
    else markers p

/-- `aosp_post_build_injector.process_partition_files`: submit each
enumerated file once (mutex-guarded `processed_files` dedup), collect the
error / indirect / direct lists from the per-file result triples, then run
`cleanup_files` on the partition folder.  The process pool is modelled
sequentially in submission order. -/
def process_partition_files (env : Env) (markers : String → Bool)
    (aosp_path folder_path target_out_path lunch_target : String)
    (file_paths : List String) :
    (List String × List InjObj × List InjPart) × (String → Bool) :=
  let partition_name := pyBasename folder_path
  let step := fun (acc : (List String × List InjObj × List InjPart)
      × (String → Bool) × List String) (file_path : String) =>
    let lists := acc.1
    let mk := acc.2.1
    let seen := acc.2.2
    if seen.contains file_path then acc
    else
      let r := process_file_concurrently env mk aosp_path file_path partition_name
        target_out_path lunch_target
      let lists1 :=
        ((match r.1.1 with | some e => lists.1 ++ [e] | none => lists.1),
         (match r.1.2.1 with | some o => lists.2.1 ++ [o] | none => lists.2.1),
         (match r.1.2.2 with | some p => lists.2.2 ++ [p] | none => lists.2.2))
      (lists1, r.2.1, file_path :: seen)
  let final := file_paths.foldl step (([], [], []), markers, [])
  (final.1, cleanup_files folder_path final.2.1)

/-! ### Container transform pipeline (`aosp_apex_injector.py`)

`handle_apex_modules` (the merge operation) is modelled with its own
oracle environment; the merge itself (`merge_apex_files`) and the
emulator-folder search are oracles, while the backup / restore / replace
logic around them — the subject of the failure-semantics claim — is
translated from the source. -/

/-- Oracles for one `handle_apex_modules` run. -/
structure ApexEnv where
  backupExists : String → Bool := fun _ => false
  restoreOk : String → Bool := fun _ => true
  backupCopyOk : String → Bool := fun _ => true
  outFileExistsPre : String → Bool := fun _ => false
  emulatorFolder : Option String := none
  folderExists : String → Bool := fun _ => true
  mergeResult : Except String (Bool × String) := .ok (true, "")
  outFileExistsPost : Bool := false
  replaceOk : Bool := true
  restoreAfterMergeOk : Bool := true

/-- `aosp_apex_injector.prepare_apex_out_file`. -/
def prepare_apex_out_file (file_path : String) : String :=
  pyJoin (pyDirname file_path) (pyReplace (pyBasename file_path) ".apex" ".v2.apex")

/-- `aosp_apex_injector.backup_original_apex_file`: restore from an
existing `.original_apex` backup, or create one; then delete a stale
`.v2.apex` output.  Runs outside any `try`, so a failing copy propagates. -/
def backup_original_apex_file (env : ApexEnv) (file_path : String) :
    Except String (String × String) × List Effect :=
  let org_apex_file := file_path ++ ".original_apex"
  let step1 : Except String Unit × List Effect :=
    if env.backupExists file_path then
      if env.restoreOk file_path then
        (.ok (), [.removeFile file_path, .backupRestore org_apex_file file_path])
      else (.error ("Error restoring original APEX: " ++ org_apex_file),
        [.removeFile file_path])
    else
      if env.backupCopyOk file_path then
        (.ok (), [.backupCreate file_path org_apex_file])
      else (.error ("Error creating APEX backup: " ++ org_apex_file), [])
  match step1 with
  | (.error e, effs) => (.error e, effs)
  | (.ok _, effs) =>
    let apex_out_file := prepare_apex_out_file file_path
    if env.outFileExistsPre file_path then
      (.ok (apex_out_file, org_apex_file), effs ++ [.removeFile apex_out_file])
    else (.ok (apex_out_file, org_apex_file), effs)

/-- `aosp_apex_injector.handle_apex_modules` (the merge operation of the
container transform pipeline).  After `merge_apex_files` returns, the
function keys success on the existence of the merged output file: if it
exists, the original is replaced and `is_merge_success` is forced to
`True` regardless of the value `merge_apex_files` returned; only when it
does not exist is the pristine backup restored and `False` returned.  An
exception inside the `try` yields `(False, "Unexpected error ...")`
without restoring. -/
def handle_apex_modules (env : ApexEnv)
    (file_path aosp_path lunch_target target_out_path : String) :
    Except String (Bool × String) × List Effect :=
  match backup_original_apex_file env file_path with
  | (.error e, effs) => (.error e, effs)
  | (.ok (apex_out_file, org_apex_file), effs0) =>
    match env.emulatorFolder with
    | some folder =>
      if env.folderExists folder then
        match env.mergeResult with
        | .error e =>
          (.ok (false, "Unexpected error while handling APEX modules: " ++ e),
            effs0 ++ [.apexMerge file_path])
        | .ok (b, log_message) =>
          if env.outFileExistsPost then
            if env.replaceOk then
              (.ok (true, log_message),
                effs0 ++ [.apexMerge file_path, .replaceOriginal apex_out_file file_path])
            else
              (.ok (b, log_message), effs0 ++ [.apexMerge file_path])
          else
            if env.restoreAfterMergeOk then
              (.ok (false, log_message),
                effs0 ++ [.apexMerge file_path, .backupRestore org_apex_file file_path])
            else
              (.ok (false, "Unexpected error while handling APEX modules: restore failed"),
                effs0 ++ [.apexMerge file_path])
      else
        (.ok (false, "Error merging APEX file: " ++ file_path
          ++ ". No emulator folder found in: " ++ target_out_path), effs0)
    | none =>
      (.ok (false, "Error merging APEX file: " ++ file_path
        ++ ". No emulator folder found in: " ++ target_out_path), effs0)

/-! ### Concrete instances

Small concrete environments used to evaluate the embedded pipeline on
explicit inputs (counterexamples and witnesses). -/

/-- A shared-library artifact inside the extraction tree. -/
def srcLib : String := "/x/ALL_FILES/vendor/libfoo.so"

/-- An object-cache candidate with the same basename, under a folder whose
path mentions the partition. -/
def candLib : String := "/out/obj/SHARED_LIBRARIES/vendor_x/libfoo.so"

/-- Environment exercising the indirect-injection fallback: the source is
not an ELF file (so the word-size probe is skipped), the computed target
path exists on disk, the object cache holds exactly one matching
candidate, and overwriting that candidate fails while every other copy
succeeds. -/
def envFallback : Env :=
  { bytes := fun _ => some [0, 0, 0, 0]
    exists_ := fun p => p == srcLib
    objFiles := fun _ => [candLib]
    copyOk := fun _ d => !(d == candLib) }

/-- Environment in which nothing exists on disk: every file takes the
direct-injection path. -/
def envDirect : Env := {}

/-- Rule set whose global path-keyword deny list matches `libfoo`. -/
def cfgSkip : Config := { SKIPPED_KEYWORD_LIST := ["libfoo"] }

/-- Environment with the `libfoo` deny rule loaded. -/
def envSkip : Env := { cfg := cfgSkip }

/-- A 64-bit ELF source artifact used for the matcher claims. -/
def srcBar : String := "/in/vendor/libbar.so"

/-- A 32-bit ELF object-cache candidate with the same basename. -/
def candBar32 : String := "/out/obj/STUFF_vendor/libbar.so"

/-- File contents: `srcBar` is 64-bit ELF, `candBar32` is 32-bit ELF. -/
def fsBar : FileBytes := fun p =>
  if p == srcBar then some [0x7f, 0x45, 0x4c, 0x46, 2]
  else if p == candBar32 then some [0x7f, 0x45, 0x4c, 0x46, 1]
  else none

/-- A 64-bit ELF object-cache candidate with the same basename. -/
def candBar64 : String := "/out/obj/SHARED_LIBRARIES/other_vendor/libbar.so"

/-- File contents: both `srcBar` and `candBar64` are 64-bit ELF. -/
def fsBar64 : FileBytes := fun p =>
  if p == srcBar then some [0x7f, 0x45, 0x4c, 0x46, 2]
  else if p == candBar64 then some [0x7f, 0x45, 0x4c, 0x46, 2]
  else none

/-- Rule set that denies binary/ETC injection but whitelists the container
file name `com.foo_compressed.apex` in `ALLOW_FILE_INJECT_ALWAYS`. -/
def cfgAlwaysName : Config :=
  { DISABLE_BINARY_INJECTION := true
    ALLOW_FILE_INJECT_ALWAYS := ["com.foo_compressed.apex"] }

/-- Rule set whose global path-keyword deny list matches `libz` while the
always-allow keyword list whitelists any path containing `always_kw`. -/
def cfgAlwaysKw : Config :=
  { SKIPPED_KEYWORD_LIST := ["libz"]
    ALLOW_FILE_INJECT_ALWAYS_KEYWORD_LIST := ["always_kw"] }

/-- APEX oracle: emulator folder found, the merge stage reports failure,
yet the merged output file exists on disk. -/
def envMergeLeak : ApexEnv :=
  { emulatorFolder := some "/emu"
    mergeResult := .ok (false, "sign failed")
    outFileExistsPost := true }

/-- APEX oracle: emulator folder found, the merge stage reports failure
and no merged output file exists. -/
def envMergeRestore : ApexEnv :=
  { emulatorFolder := some "/emu"
    mergeResult := .ok (false, "container creation failed")
    outFileExistsPost := false }

/-- The first partition run of the idempotency experiment: fresh marker
state, one enumerated file, everything on the direct-injection path. -/
def c2FirstRun : (List String × List InjObj × List InjPart) × (String → Bool) :=
  process_partition_files envDirect (fun _ => false) "/aosp/" "/x/ALL_FILES/vendor"
    "/out/" "lt" [srcLib]

/-! ## Theorems

Helper lemmas first, then one theorem per claim (with counterexamples and
witnesses where required). -/

/-- A list starts with itself followed by anything. -/
theorem startsWithL_append (l m : List Char) : startsWithL l (l ++ m) = true := by
  induction l with
  | nil => rfl
  | cons a as ih => simp [startsWithL, ih]

/-- Appending a suffix makes `pyEndsWith` hold for that suffix. -/
theorem pyEndsWith_append (a b : String) : pyEndsWith (a ++ b) b = true := by
  unfold pyEndsWith
  rw [String.data_append, List.reverse_append]
  exact startsWithL_append _ _

/-- Stepping lemma for the override chain: an `ite` whose branches lie in
`{tmp, SKIPPED, ETC}` stays in the set. -/
theorem ite_mem3 {c : Prop} [Decidable c] {K v tmp : String}
    (hK : K = tmp ∨ K = "SKIPPED" ∨ K = "ETC")
    (hv : v = tmp ∨ v = "SKIPPED" ∨ v = "ETC") :
    (if c then K else v) = tmp ∨ (if c then K else v) = "SKIPPED"
      ∨ (if c then K else v) = "ETC" := by
  split
  · exact hK
  · exact hv

/-- Two-valued version of `ite_mem3` for the pre-override chain. -/
theorem ite_mem2 {c : Prop} [Decidable c] {K v tmp : String}
    (hK : K = tmp ∨ K = "SKIPPED") (hv : v = tmp ∨ v = "SKIPPED") :
    (if c then K else v) = tmp ∨ (if c then K else v) = "SKIPPED" := by
  split
  · exact hK
  · exact hv

/-- The APPS allow rule re-assigns `"APPS"` only under the guard
`v = "APPS"`, so the value is unchanged. -/
theorem ite_apps {c : Prop} [Decidable c] {v tmp : String}
    (hv : v = tmp ∨ v = "SKIPPED") :
    (if v = "APPS" ∧ c then "APPS" else v) = tmp
      ∨ (if v = "APPS" ∧ c then "APPS" else v) = "SKIPPED" := by
  split
  · next h =>
    rcases hv with h1 | h1
    · left; rw [← h.1, h1]
    · rw [h1] at h
      exact absurd h.1 (by simp)
  · exact hv

/-- The pre-override chain only ever keeps the tentative type or forces
`SKIPPED`. -/
theorem override_pre_mem (cfg : Config) (sp fe fn fne tmp : String) :
    override_pre cfg sp fe fn fne tmp = tmp ∨ override_pre cfg sp fe fn fne tmp = "SKIPPED" := by
  simp only [override_pre]
  exact ite_mem2 (Or.inr rfl)
    (ite_mem2 (Or.inr rfl)
      (ite_apps (ite_mem2 (Or.inr rfl) (ite_mem2 (Or.inr rfl) (Or.inl rfl)))))

/-- The post-override chain maps a value in `{tmp, SKIPPED, ETC}` to a
value in the same set. -/
theorem override_post_mem (cfg : Config) (sp fe fn fne tmp : String) (is_apex : Bool)
    (m6 : String) (hm6 : m6 = tmp ∨ m6 = "SKIPPED" ∨ m6 = "ETC") :
    override_post cfg sp fe fn fne tmp is_apex m6 = tmp
      ∨ override_post cfg sp fe fn fne tmp is_apex m6 = "SKIPPED"
      ∨ override_post cfg sp fe fn fne tmp is_apex m6 = "ETC" := by
  simp only [override_post]
  refine ite_mem3 (Or.inl rfl) ?_
  refine ite_mem3 (Or.inl rfl) ?_
  refine ite_mem3 (Or.inr (Or.inl rfl)) ?_
  refine ite_mem3 (Or.inr (Or.inl rfl)) ?_
  refine ite_mem3 (Or.inl rfl) ?_
  refine ite_mem3 (Or.inr (Or.inl rfl)) ?_
  refine ite_mem3 (Or.inr (Or.inr rfl)) ?_
  refine ite_mem3 (Or.inr (Or.inr rfl)) ?_
  refine ite_mem3 (Or.inr (Or.inl rfl)) ?_
  exact ite_mem3 (ite_mem3 (Or.inr (Or.inl rfl)) (Or.inl rfl)) hm6

/-- The base classification always yields one of the seven base labels. -/
theorem base_classification_fst (fs : FileBytes) (p pd fn fe : String) :
    (base_classification fs p pd fn fe).1 = "EXECUTABLES"
    ∨ (base_classification fs p pd fn fe).1 = "JAVA_LIBRARIES"
    ∨ (base_classification fs p pd fn fe).1 = "SHARED_LIBRARIES"
    ∨ (base_classification fs p pd fn fe).1 = "APPS"
    ∨ (base_classification fs p pd fn fe).1 = "STATIC_CONFIG"
    ∨ (base_classification fs p pd fn fe).1 = "ETC"
    ∨ (base_classification fs p pd fn fe).1 = "MISC" := by
  unfold base_classification
  split_ifs <;> simp

/-- The already-injected stage keeps the set `{tmp, SKIPPED, ETC}` when it
acts on the pre-override result. -/
theorem m6_mem (cfg : Config) (sp fe fn fne tmp : String) (c : Prop) [Decidable c] :
    (if c then "SKIPPED" else override_pre cfg sp fe fn fne tmp) = tmp
    ∨ (if c then "SKIPPED" else override_pre cfg sp fe fn fne tmp) = "SKIPPED"
    ∨ (if c then "SKIPPED" else override_pre cfg sp fe fn fne tmp) = "ETC" := by
  refine ite_mem3 (Or.inr (Or.inl rfl)) ?_
  rcases override_pre_mem cfg sp fe fn fne tmp with hh | hh
  · exact Or.inl hh
  · exact Or.inr (Or.inl hh)

/-- C10: whenever `get_module_type` returns a pair `(final, tentative)`,
the tentative type is one of the seven base labels (never `SKIPPED`) and
the final type is the tentative type, `SKIPPED`, or `ETC` — no override
rule can produce any other final value. -/
theorem c10_classifier_range (fs : FileBytes) (cfg : Config) (path : String)
    (pkgs : Option (List String)) (m t : String)
    (h : get_module_type fs cfg path pkgs = .ok (m, t)) :
    (t = "EXECUTABLES" ∨ t = "JAVA_LIBRARIES" ∨ t = "SHARED_LIBRARIES" ∨ t = "APPS"
      ∨ t = "STATIC_CONFIG" ∨ t = "ETC" ∨ t = "MISC")
    ∧ (m = t ∨ m = "SKIPPED" ∨ m = "ETC") := by
  rcases pkgs with _ | l
  · simp only [get_module_type] at h
    split at h
    · exact absurd h (by simp)
    · simp only [Except.ok.injEq, Prod.mk.injEq] at h
      obtain ⟨h1, h2⟩ := h
      constructor
      · rw [← h2]; exact base_classification_fst fs _ _ _ _
      · rw [← h1, ← h2]
        exact override_post_mem cfg _ _ _ _ _ _ _ (m6_mem cfg _ _ _ _ _ _)
  · simp only [get_module_type] at h
    simp only [Except.ok.injEq, Prod.mk.injEq] at h
    obtain ⟨h1, h2⟩ := h
    constructor
    · rw [← h2]; exact base_classification_fst fs _ _ _ _
    · rw [← h1, ← h2]
      exact override_post_mem cfg _ _ _ _ _ _ _ (m6_mem cfg _ _ _ _ _ _)

/-- C10 witness: the range invariant evaluated on a concrete `.so` path. -/
theorem c10_classifier_range_witness :
    ("SHARED_LIBRARIES" = "EXECUTABLES" ∨ "SHARED_LIBRARIES" = "JAVA_LIBRARIES"
      ∨ "SHARED_LIBRARIES" = "SHARED_LIBRARIES" ∨ "SHARED_LIBRARIES" = "APPS"
      ∨ "SHARED_LIBRARIES" = "STATIC_CONFIG" ∨ "SHARED_LIBRARIES" = "ETC"
      ∨ "SHARED_LIBRARIES" = "MISC")
    ∧ ("SKIPPED" = "SHARED_LIBRARIES" ∨ "SKIPPED" = "SKIPPED" ∨ "SKIPPED" = "ETC") :=
  c10_classifier_range envSkip.bytes envSkip.cfg srcLib envSkip.pkgs "SKIPPED"
    "SHARED_LIBRARIES" (by decide)

/-! ### C8 — classification failure semantics -/

/-- C8 counterexample: with the Python default
`pre_injector_package_list=None`, classifying a plain `.so` file under the
empty rule set reaches the already-injected check and iterates over
`None`, raising `TypeError` — classification does not terminate normally. -/
theorem c8_counterexample :
    get_module_type (fun _ => none) emptyConfig "/x/vendor/libfoo.so" none
      = .error
        ("TypeError: argument of type NoneType is not iterable: /x/vendor/libfoo.so") := by
  decide

/-- C8 (amended): classification never raises provided the caller supplies
an already-injected list; for every rule set, path, file contents and
supplied list the classifier returns a result pair. -/
theorem c8_no_raise_with_list (fs : FileBytes) (cfg : Config) (path : String)
    (pkgs : List String) :
    ∃ r, get_module_type fs cfg path (some pkgs) = .ok r :=
  ⟨_, rfl⟩

/-! ### C5 — the always-allow override -/

/-- C5 counterexample: the basename `com.foo_compressed.apex` is listed in
`ALLOW_FILE_INJECT_ALWAYS`, yet the final result is `SKIPPED` (not the
tentative `ETC`), because the name compared by the override is the
apex-normalised `com.foo.apex`, not the basename. -/
theorem c5_counterexample :
    cfgAlwaysName.ALLOW_FILE_INJECT_ALWAYS.contains
        (pyBasename "/x/com.foo_compressed.apex") = true
    ∧ get_module_type (fun _ => none) cfgAlwaysName "/x/com.foo_compressed.apex"
        (some []) = .ok ("SKIPPED", "ETC") := by
  decide

/-- C5 (amended): if the *effective* file name — the basename of the
whitespace-stripped path after apex `_compressed`/`_trimmed`
normalisation — is listed in `ALLOW_FILE_INJECT_ALWAYS`, or the stripped
path contains an `ALLOW_FILE_INJECT_ALWAYS_KEYWORD_LIST` keyword, then the
classifier returns the tentative type as final result, overriding any
earlier deny rule. -/
theorem c5_always_allow_final (fs : FileBytes) (cfg : Config) (path : String)
    (pkgs : List String)
    (h : allow_file_inject_always_override cfg
        (base_classification fs (pyStrip path) (pyDirname path)
          (pyBasename (pyStrip path)) (pySplitext (pyStrip path)).2).2
        (pyStrip path) = true) :
    ∃ t, get_module_type fs cfg path (some pkgs) = .ok (t, t) := by
  refine ⟨(base_classification fs (pyStrip path) (pyDirname path)
    (pyBasename (pyStrip path)) (pySplitext (pyStrip path)).2).1, ?_⟩
  simp only [get_module_type, override_post, Except.ok.injEq, Prod.mk.injEq]
  simp [h]

/-- C5 witness: a path whose keyword deny rule would force `SKIPPED` is
rescued by the always-allow keyword. -/
theorem c5_always_allow_final_witness :
    allow_file_inject_always_override cfgAlwaysKw
        (base_classification (fun _ => none) (pyStrip "/x/always_kw/libz.so")
          (pyDirname "/x/always_kw/libz.so") (pyBasename (pyStrip "/x/always_kw/libz.so"))
          (pySplitext (pyStrip "/x/always_kw/libz.so")).2).2
        (pyStrip "/x/always_kw/libz.so") = true
    ∧ ∃ t, get_module_type (fun _ => none) cfgAlwaysKw "/x/always_kw/libz.so" (some [])
        = .ok (t, t) :=
  ⟨by decide,
   c5_always_allow_final (fun _ => none) cfgAlwaysKw "/x/always_kw/libz.so" [] (by decide)⟩

/-! ### C3 — SKIPPED is terminal -/

/-- C3: when classification yields `SKIPPED` (and the completion marker is
absent), the worker records only the skip message — no injection record —
and the only filesystem mutations are the lock file and the completion
marker. -/
theorem c3_skipped_no_injection (env : Env) (markers : String → Bool)
    (aosp_path file_path partition_name target_out_path lunch_target tmp : String)
    (hm : markers (file_path ++ ".fmd-aecs-processed") = false)
    (hc : get_module_type env.bytes env.cfg file_path env.pkgs = .ok ("SKIPPED", tmp)) :
    (process_file_concurrently env markers aosp_path file_path partition_name
        target_out_path lunch_target).1
      = (some ("Skipped File post-inject (Keyword/Extension/Filename): " ++ file_path
          ++ " | module_type: " ++ "SKIPPED"), none, none)
    ∧ (process_file_concurrently env markers aosp_path file_path partition_name
        target_out_path lunch_target).2.2
      = [.createLock (file_path ++ ".fmd-aecs-lock"),
         .writeMarker (file_path ++ ".fmd-aecs-processed")] := by
  unfold process_file_concurrently process_file_body
  simp [hm, hc]

/-- C3 witness: the deny-keyword rule set skips `libfoo.so`; only the lock
and the marker are created. -/
theorem c3_skipped_no_injection_witness :
    (process_file_concurrently envSkip (fun _ => false) "/aosp/" srcLib "vendor"
        "/out/" "lt").1
      = (some ("Skipped File post-inject (Keyword/Extension/Filename): " ++ srcLib
          ++ " | module_type: " ++ "SKIPPED"), none, none)
    ∧ (process_file_concurrently envSkip (fun _ => false) "/aosp/" srcLib "vendor"
        "/out/" "lt").2.2
      = [.createLock (srcLib ++ ".fmd-aecs-lock"),
         .writeMarker (srcLib ++ ".fmd-aecs-processed")] :=
  c3_skipped_no_injection envSkip (fun _ => false) "/aosp/" srcLib "vendor" "/out/" "lt"
    "SHARED_LIBRARIES" rfl (by decide)

/-! ### C6 — completion-marker protocol -/

/-- C6: (i) a file whose completion marker exists is returned as already
processed with no classification, no injection and no mutation at all;
(ii) when the marker is absent at the initial check, the marker is written
at the end of the attempt regardless of how the body ended (success,
recorded error, or raise — the result of the body is unconstrained here). -/
theorem c6_marker_protocol (env : Env) (markers : String → Bool)
    (aosp_path file_path partition_name target_out_path lunch_target : String) :
    (markers (file_path ++ ".fmd-aecs-processed") = true →
      process_file_concurrently env markers aosp_path file_path partition_name
          target_out_path lunch_target
        = ((some ("File already processed: " ++ file_path), none, none), markers, []))
    ∧ (markers (file_path ++ ".fmd-aecs-processed") = false →
      Effect.writeMarker (file_path ++ ".fmd-aecs-processed")
          ∈ (process_file_concurrently env markers aosp_path file_path partition_name
              target_out_path lunch_target).2.2
        ∧ (process_file_concurrently env markers aosp_path file_path partition_name
            target_out_path lunch_target).2.1 (file_path ++ ".fmd-aecs-processed")
          = true) := by
  constructor
  · intro h
    unfold process_file_concurrently
    simp [h]
  · intro h
    unfold process_file_concurrently
    simp [h]

/-- C6 witness: both marker states exercised on a concrete file. -/
theorem c6_marker_protocol_witness :
    process_file_concurrently envDirect (fun _ => true) "/aosp/" srcLib "vendor" "/out/"
        "lt"
      = ((some ("File already processed: " ++ srcLib), none, none), (fun _ => true), [])
    ∧ Effect.writeMarker (srcLib ++ ".fmd-aecs-processed")
        ∈ (process_file_concurrently envDirect (fun _ => false) "/aosp/" srcLib "vendor"
            "/out/" "lt").2.2 :=
  ⟨(c6_marker_protocol envDirect (fun _ => true) "/aosp/" srcLib "vendor" "/out/"
      "lt").1 rfl,
   ((c6_marker_protocol envDirect (fun _ => false) "/aosp/" srcLib "vendor" "/out/"
      "lt").2 rfl).1⟩

/-! ### C1 — outcome exclusivity -/

/-- C1 counterexample: for `libfoo.so` the target path exists, the object
cache yields one candidate, overwriting the candidate fails, and the
fallback direct injection runs — the per-file result then carries *both*
an indirect-injection record and a direct-injection record (and no error),
not exactly one outcome. -/
theorem c1_counterexample :
    (process_file_concurrently envFallback (fun _ => false) "/aosp/" srcLib "vendor"
        "/out/" "lt").1
      = (none, some (srcLib, some candLib, "SHARED_LIBRARIES"),
          some (srcLib, srcLib, "SHARED_LIBRARIES")) := by
  decide

/-- C1 (amended): when the indirect path runs for a non-container file with
an existing target and reports `is_injected = False`, the fallback direct
injection runs and the result keeps both the indirect record and the new
direct record. -/
theorem c1_fallback_two_records (env : Env)
    (partition_name module_type file_path target_out_path aosp_path lunch_target
      tp : String) (o : InjObj) (effs effs2 : List Effect)
    (hext : ((pySplitext (pyBasename file_path)).2 == ".apex"
        || (pySplitext (pyBasename file_path)).2 == ".capex") = false)
    (hex : env.exists_ (env.get_target_injection_path file_path partition_name
        target_out_path) = true)
    (hind : indirect_injection env
        (env.get_target_injection_path file_path partition_name target_out_path)
        (pyBasename file_path) target_out_path partition_name module_type file_path none
        aosp_path lunch_target
      = (.ok (some o, none, some false), effs))
    (hdir : inject_file_into_partition env file_path
        (env.get_target_injection_path file_path partition_name target_out_path)
        aosp_path partition_name lunch_target
      = (.ok tp, effs2)) :
    search_and_inject env partition_name module_type file_path target_out_path aosp_path
        lunch_target
      = (.ok (some o, some (file_path, tp, module_type)), effs ++ effs2) := by
  unfold search_and_inject
  simp [hext, hex, hind, hdir]

/-- C1 witness: the fallback scenario at the concrete environment. -/
theorem c1_fallback_two_records_witness :
    search_and_inject envFallback "vendor" "SHARED_LIBRARIES" srcLib "/out/" "/aosp/" "lt"
      = (.ok (some (srcLib, some candLib, "SHARED_LIBRARIES"),
          some (srcLib, srcLib, "SHARED_LIBRARIES")),
        [Effect.copyFile srcLib srcLib, Effect.chmodExec srcLib]) :=
  c1_fallback_two_records envFallback "vendor" "SHARED_LIBRARIES" srcLib "/out/" "/aosp/"
    "lt" srcLib (srcLib, some candLib, "SHARED_LIBRARIES") []
    [Effect.copyFile srcLib srcLib, Effect.chmodExec srcLib]
    (by decide) (by decide) (by rfl) (by rfl)

/-! ### C2 — idempotency and the cleanup pass -/

/-- C2 counterexample: the first run direct-injects `libfoo.so`; after the
partition completes, the cleanup pass has removed its completion marker,
so a second run over the same input re-processes the file and performs the
same direct injection again — not zero new injections. -/
theorem c2_counterexample :
    c2FirstRun.1.2.2 = [(srcLib, srcLib, "SHARED_LIBRARIES")]
    ∧ c2FirstRun.2 (srcLib ++ ".fmd-aecs-processed") = false
    ∧ (process_partition_files envDirect c2FirstRun.2 "/aosp/" "/x/ALL_FILES/vendor"
        "/out/" "lt" [srcLib]).1.2.2 = [(srcLib, srcLib, "SHARED_LIBRARIES")] := by
  decide

/-- C2 (amended): after `process_partition_files` finishes a partition, no
completion marker under the partition folder survives (the cleanup pass
removes them all), so a second run finds no marker from the first run and
re-processes every file instead of reporting zero new injections. -/
theorem c2_markers_removed (env : Env) (markers : String → Bool)
    (aosp_path folder_path target_out_path lunch_target f : String)
    (file_paths : List String)
    (hf : pyStartsWith (f ++ ".fmd-aecs-processed") folder_path = true) :
    (process_partition_files env markers aosp_path folder_path target_out_path
        lunch_target file_paths).2 (f ++ ".fmd-aecs-processed") = false := by
  unfold process_partition_files cleanup_files
  simp [hf, pyEndsWith_append]

/-- C2 witness: the marker of the injected file is gone after the run. -/
theorem c2_markers_removed_witness :
    (process_partition_files envDirect (fun _ => false) "/aosp/" "/x/ALL_FILES/vendor"
        "/out/" "lt" [srcLib]).2 (srcLib ++ ".fmd-aecs-processed") = false :=
  c2_markers_removed envDirect (fun _ => false) "/aosp/" "/x/ALL_FILES/vendor" "/out/"
    "lt" srcLib [srcLib] (by decide)

/-! ### C4 — architecture safety of the matcher -/

/-- Unpacking the final guard of `search_original_file_in_obj`. -/
theorem guard_some {α : Type} {L l : List α}
    (h : (if L.length > 0 then some L else none) = some l) : L = l := by
  split at h
  · injection h
  · exact absurd h (by simp)

/-- Every candidate the matcher loop keeps has passed
`check_file_compatibility`. -/
theorem keep_implies_compat (fs : FileBytes) (cfg : Config)
    (pn mt fp fn mn ri c : String)
    (h : search_obj_keep fs cfg pn mt fp fn mn ri c = true) :
    check_file_compatibility fs fp c mt = true := by
  by_cases hcomp : check_file_compatibility fs fp c mt = true
  · exact hcomp
  · rw [Bool.not_eq_true] at hcomp
    unfold search_obj_keep at h
    simp [hcomp] at h

/-- Every candidate returned by `search_original_file_in_obj` has passed
`check_file_compatibility`. -/
theorem search_mem_compat (fs : FileBytes) (cfg : Config)
    (objFiles : String → List String) (pn mt fp fn top : String) (l : List String)
    (c : String)
    (h : search_original_file_in_obj fs cfg objFiles pn mt fp fn top = some l)
    (hc : c ∈ l) : check_file_compatibility fs fp c mt = true := by
  simp only [search_original_file_in_obj] at h
  have hL := guard_some h
  rw [← hL] at hc
  exact keep_implies_compat _ _ _ _ _ _ _ _ _ (List.mem_filter.mp hc).2

/-- For the ABI-checked module types with an ELF source, compatibility
implies equal word size. -/
theorem compat_implies_same_arch (fs : FileBytes) (fp c mt : String)
    (hmt : mt = "SHARED_LIBRARIES" ∨ mt = "EXECUTABLES" ∨ mt = "ETC")
    (helf : is_elf_binary fs fp = true)
    (h : check_file_compatibility fs fp c mt = true) :
    check_shared_object_architecture fs c = check_shared_object_architecture fs fp := by
  have hjava : (mt == "JAVA_LIBRARIES") = false := by
    rcases hmt with h1 | h1 | h1 <;> simp [h1]
  have hcont : MODULE_TYPE_ABI_COMPATIBLE.contains mt = true := by
    rcases hmt with h1 | h1 | h1 <;> simp [h1, MODULE_TYPE_ABI_COMPATIBLE]
  unfold check_file_compatibility at h
  simp only [hjava, hcont, helf, Bool.and_self, Bool.true_and, if_false,
    Bool.false_eq_true, if_true] at h
  cases harm : pyIn "arm" fp <;> simp [harm] at h
  · exact h.2
  · exact h.1.2

/-- C4 counterexample: for module type `MISC` (outside
`MODULE_TYPE_ABI_COMPATIBLE`), the matcher returns a 32-bit candidate for
a 64-bit ELF source — the word-size probe is skipped, refuting the claim
for all module types. -/
theorem c4_counterexample :
    search_original_file_in_obj fsBar emptyConfig (fun _ => [candBar32]) "vendor" "MISC"
        srcBar "libbar.so" "/out/" = some [candBar32]
    ∧ is_elf_binary fsBar srcBar = true
    ∧ check_shared_object_architecture fsBar candBar32 = "32-bit"
    ∧ check_shared_object_architecture fsBar srcBar = "64-bit" := by
  decide

/-- C4 (amended): for module types `SHARED_LIBRARIES`, `EXECUTABLES` and
`ETC` with an ELF source, every candidate returned by the matcher has the
same ELF word size as the source. -/
theorem c4_arch_safety (fs : FileBytes) (cfg : Config)
    (objFiles : String → List String) (pn mt fp fn top : String) (l : List String)
    (c : String)
    (hmt : mt = "SHARED_LIBRARIES" ∨ mt = "EXECUTABLES" ∨ mt = "ETC")
    (helf : is_elf_binary fs fp = true)
    (h : search_original_file_in_obj fs cfg objFiles pn mt fp fn top = some l)
    (hc : c ∈ l) :
    check_shared_object_architecture fs c = check_shared_object_architecture fs fp :=
  compat_implies_same_arch fs fp c mt hmt helf
    (search_mem_compat fs cfg objFiles pn mt fp fn top l c h hc)

/-- C4 witness: a 64-bit candidate matched for a 64-bit shared library. -/
theorem c4_arch_safety_witness :
    is_elf_binary fsBar64 srcBar = true
    ∧ check_shared_object_architecture fsBar64 candBar64
        = check_shared_object_architecture fsBar64 srcBar :=
  ⟨by decide,
   c4_arch_safety fsBar64 emptyConfig (fun _ => [candBar64]) "vendor" "SHARED_LIBRARIES"
     srcBar "libbar.so" "/out/" [candBar64] candBar64 (Or.inl rfl) (by decide)
     (by decide) (by decide)⟩

/-! ### C7 — container operation failure semantics -/

/-- C7 counterexample: the merge stage reports failure, but because the
merged output file exists on disk, `handle_apex_modules` replaces the
original container and returns success — the function returns success
although a stage reported failure. -/
theorem c7_counterexample :
    envMergeLeak.mergeResult = .ok (false, "sign failed")
    ∧ (handle_apex_modules envMergeLeak "/x/com.a.apex" "/aosp/" "lt" "/out/").1
        = .ok (true, "sign failed") := by
  decide

/-- C7 (amended): after the merge stage runs, (i) if no merged output file
exists on disk the original container is restored from the pristine backup
and the caller receives `(false, diagnostic)`; but (ii) if a merged output
file exists the function replaces the original with it and returns
success, even when the merge stage reported failure. -/
theorem c7_failure_semantics (env : ApexEnv)
    (file_path aosp_path lunch_target target_out_path folder : String) (b : Bool)
    (msg : String)
    (hb : env.backupExists file_path = false)
    (hbc : env.backupCopyOk file_path = true)
    (hpre : env.outFileExistsPre file_path = false)
    (hemu : env.emulatorFolder = some folder)
    (hfol : env.folderExists folder = true)
    (hmerge : env.mergeResult = .ok (b, msg)) :
    (env.outFileExistsPost = false → env.restoreAfterMergeOk = true →
      (handle_apex_modules env file_path aosp_path lunch_target target_out_path).1
        = .ok (false, msg)
      ∧ Effect.backupRestore (file_path ++ ".original_apex") file_path
          ∈ (handle_apex_modules env file_path aosp_path lunch_target target_out_path).2)
    ∧ (env.outFileExistsPost = true → env.replaceOk = true →
      (handle_apex_modules env file_path aosp_path lunch_target target_out_path).1
        = .ok (true, msg)) := by
  constructor
  · intro h1 h2
    unfold handle_apex_modules backup_original_apex_file
    simp [hb, hbc, hpre, hemu, hfol, hmerge, h1, h2]
  · intro h1 h2
    unfold handle_apex_modules backup_original_apex_file
    simp [hb, hbc, hpre, hemu, hfol, hmerge, h1, h2]

/-- C7 witness: both failure branches at concrete oracles. -/
theorem c7_failure_semantics_witness :
    ((handle_apex_modules envMergeRestore "/x/com.a.apex" "/aosp/" "lt" "/out/").1
        = .ok (false, "container creation failed")
      ∧ Effect.backupRestore ("/x/com.a.apex" ++ ".original_apex") "/x/com.a.apex"
          ∈ (handle_apex_modules envMergeRestore "/x/com.a.apex" "/aosp/" "lt"
              "/out/").2)
    ∧ (handle_apex_modules envMergeLeak "/x/com.a.apex" "/aosp/" "lt" "/out/").1
        = .ok (true, "sign failed") :=
  ⟨(c7_failure_semantics envMergeRestore "/x/com.a.apex" "/aosp/" "lt" "/out/" "/emu"
      false "container creation failed" rfl rfl rfl rfl rfl rfl).1 rfl rfl,
   (c7_failure_semantics envMergeLeak "/x/com.a.apex" "/aosp/" "lt" "/out/" "/emu"
      false "sign failed" rfl rfl rfl rfl rfl rfl).2 rfl rfl⟩

/-! ### C9 — container-namespace routing -/

/-- C9 counterexample: an `EXECUTABLES` candidate under `/apex/` is routed
to `/etc/`, not `/bin/` — the `bin` route is keyed on the literal module
type `BINARY`, which the classifier never produces (see
`c10_classifier_range`). -/
theorem c9_counterexample :
    inject_file_into_obj envDirect "/in/foo" "/sys/apex/com.android.x/foo" "EXECUTABLES"
        "/aosp/" "vendor" "lt"
      = (.ok true, [.copyFile "/in/foo" "/etc/foo"])
    ∧ apex_route_destination "EXECUTABLES" "foo" = "/etc/foo" := by
  decide

/-- C9 (amended): a candidate under the container mount namespace is
copied to exactly one of three fixed destinations chosen by module type —
`framework` for Java libraries, `bin` only for the literal type `BINARY`,
`etc` for every other type including `EXECUTABLES` — instead of
overwriting the candidate in place. -/
theorem c9_apex_routing (env : Env)
    (source original module_type aosp_path partition_name lunch_target a b : String)
    (hs : env.hashOf source = some a) (ho : env.hashOf original = some b)
    (hapex : pyIn "/apex/" original = true)
    (hcopy : env.copyOk source (apex_route_destination module_type (pyBasename original))
      = true) :
    inject_file_into_obj env source original module_type aosp_path partition_name
        lunch_target
      = (.ok true,
        [.copyFile source (apex_route_destination module_type (pyBasename original))])
    ∧ apex_route_destination "EXECUTABLES" (pyBasename original)
        = "/etc/" ++ pyBasename original := by
  constructor
  · unfold inject_file_into_obj
    simp [hs, ho, hapex, hcopy]
  · rfl

/-- C9 witness: routing of a concrete `EXECUTABLES` candidate. -/
theorem c9_apex_routing_witness :
    inject_file_into_obj envDirect "/in/bar" "/sys/apex/com.android.y/bar" "EXECUTABLES"
        "/aosp/" "vendor" "lt"
      = (.ok true,
        [.copyFile "/in/bar"
          (apex_route_destination "EXECUTABLES" (pyBasename "/sys/apex/com.android.y/bar"))])
    ∧ apex_route_destination "EXECUTABLES" (pyBasename "/sys/apex/com.android.y/bar")
        = "/etc/" ++ pyBasename "/sys/apex/com.android.y/bar" :=
  c9_apex_routing envDirect "/in/bar" "/sys/apex/com.android.y/bar" "EXECUTABLES"
    "/aosp/" "vendor" "lt" "d41d8cd9" "d41d8cd9" rfl rfl (by decide) (by decide)

end Rehoster
